import Mathlib

/-!
# lovr: filesystem facade (`src/core/fs.c`) and render target (`src/graphics/canvas.h`)

A shallow embedding of the POSIX filesystem facade and of the Canvas render
target.  Operating-system calls are oracles collected in `OS`; the mutable
part of the process that the facade touches (open descriptors, open directory
streams) is the explicit state `World`; memory is a map from addresses to
bytes; C strings are the lists of their bytes before the terminating NUL.
-/

namespace Lovr

/-! ## Machine integers -/

/-- Number of values of a 64-bit word (`size_t`, `uint64_t`). -/
def WORD : Nat := 2 ^ 64

/-- Conversion of a signed 64-bit value (`off_t`, `time_t`, `ssize_t`) to an
unsigned 64-bit one, as the casts `(uint64_t) x` and `(size_t) x` do. -/
def toUInt64 (x : Int) : Nat := (x % (2 ^ 64 : Int)).toNat

/-- Range of a signed 64-bit value (`ssize_t`). -/
def inSSize (x : Int) : Prop := -(2 ^ 63 : Int) ≤ x ∧ x < (2 ^ 63 : Int)

instance (x : Int) : Decidable (inSSize x) := by
  unfold inSSize; infer_instance

/-- Bytes of a C string before its terminating NUL. -/
abbrev CStr := List Nat

/-- Length of a C string, `strlen`. -/
def strlen (s : CStr) : Nat := s.length

/-- Null pointer. -/
def NULL : Nat := 0

/-- Value `(void*) -1` that `mmap` returns on failure (`<sys/mman.h>`). -/
def MAP_FAILED : Nat := 2 ^ 64 - 1

/-! ## Constants of the system headers (Linux values) -/

/-- Flag `O_RDONLY` of `<fcntl.h>`. -/
def O_RDONLY : Nat := 0
/-- Flag `O_WRONLY` of `<fcntl.h>`. -/
def O_WRONLY : Nat := 0o1
/-- Flag `O_CREAT` of `<fcntl.h>`. -/
def O_CREAT : Nat := 0o100
/-- Flag `O_TRUNC` of `<fcntl.h>`. -/
def O_TRUNC : Nat := 0o1000
/-- Flag `O_APPEND` of `<fcntl.h>`. -/
def O_APPEND : Nat := 0o2000
/-- Access-mode mask `O_ACCMODE` of `<fcntl.h>`. -/
def O_ACCMODE : Nat := 0o3
/-- Permission bit `S_IRUSR` of `<sys/stat.h>`. -/
def S_IRUSR : Nat := 0o400
/-- Permission bit `S_IWUSR` of `<sys/stat.h>`. -/
def S_IWUSR : Nat := 0o200
/-- File-type mask `S_IFMT` of `<sys/stat.h>`. -/
def S_IFMT : Nat := 0o170000
/-- File type `S_IFDIR` (directory) of `<sys/stat.h>`. -/
def S_IFDIR : Nat := 0o040000
/-- File type `S_IFREG` (regular file) of `<sys/stat.h>`. -/
def S_IFREG : Nat := 0o100000
/-- File type `S_IFBLK` (block device) of `<sys/stat.h>`. -/
def S_IFBLK : Nat := 0o060000
/-- File type `S_IFSOCK` (socket) of `<sys/stat.h>`. -/
def S_IFSOCK : Nat := 0o140000
/-- Protection `PROT_READ` of `<sys/mman.h>`. -/
def PROT_READ : Nat := 1
/-- Flag `MAP_PRIVATE` of `<sys/mman.h>`. -/
def MAP_PRIVATE : Nat := 2

/-! ## Types of `fs.h` -/

/-- Modelled from the spec: `fs.h` is not among the source files.  The open
modes are the three that `fs_open` switches on; `other` stands for any
further value of the enumeration type, which reaches the `default` case. -/
inductive OpenMode where
  | OPEN_READ
  | OPEN_WRITE
  | OPEN_APPEND
  | other (n : Nat)
  deriving DecidableEq, Repr

/-- Modelled from the spec: `fs.h` is not among the source files.  The two
file types `fs_stat` assigns (spec: `stat(path) -> {size, lastModified,
isDirectory}`). -/
inductive FileType where
  | FILE_REGULAR
  | FILE_DIRECTORY
  deriving DecidableEq, Repr

/-- Modelled from the spec: `fs.h` is not among the source files.  The three
fields `fs_stat` assigns, `size` and `lastModified` being `uint64_t`. -/
structure FileInfo where
  size : Nat
  lastModified : Nat
  type : FileType
  deriving DecidableEq, Repr

/-- Modelled from the spec: `fs.h` is not among the source files.  On POSIX a
file handle wraps the descriptor, read as `file.handle`. -/
structure fs_handle where
  handle : Int
  deriving DecidableEq, Repr

/-! ## The operating system -/

/-- The fields of `struct stat` that `fs_stat` reads. -/
structure Stat where
  st_mode : Nat
  st_size : Int
  st_mtime : Int
  deriving DecidableEq, Repr

/-- The field of `struct passwd` that `fs_getHomeDir` reads. -/
structure Passwd where
  pw_dir : CStr
  deriving DecidableEq, Repr

/-- The system calls of `fs.c`, as oracles.
`stat` is `none` when the call returns non-zero; `sys_open` returns the new
descriptor or `-1`; `read` and `write` take descriptor, buffer address and
count and return the `ssize_t` result; `mmap` takes length, protection,
flags, descriptor and offset and returns the address or `MAP_FAILED`;
`opendir` is `none` when it returns `NULL`, otherwise the entries the
directory stream will yield, in order; `getenv` is `none` for an unset
variable; `getpwuid` is `none` when there is no entry. -/
structure OS where
  stat : CStr → Option Stat
  sys_open : CStr → Nat → Nat → Int
  read : Int → Nat → Nat → Int
  write : Int → Nat → Nat → Int
  mmap : Nat → Nat → Nat → Int → Nat → Nat
  opendir : CStr → Option (List CStr)
  getenv : String → Option CStr
  getuid : Nat
  getpwuid : Nat → Option Passwd

/-- The process state the facade changes: the descriptors that are open and
the number of open directory streams. -/
structure World where
  fds : List Int
  dirs : Nat
  deriving DecidableEq, Repr

/-- The call `open(path, flags, mode)`: a descriptor other than `-1` is
recorded as open. -/
def sys_open (os : OS) (w : World) (path : CStr) (flags mode : Nat) : Int × World :=
  let fd := os.sys_open path flags mode
  if fd = -1 then (fd, w) else (fd, { w with fds := fd :: w.fds })

/-- The call `close(fd)`: `0` and the descriptor is no longer open, or `-1`
when it was not open. -/
def sys_close (w : World) (fd : Int) : Int × World :=
  if fd ∈ w.fds then (0, { w with fds := w.fds.erase fd }) else (-1, w)

/-- The call `opendir(path)`: `none` for `NULL`, otherwise the directory
stream, now open, as the entries it will yield. -/
def sys_opendir (os : OS) (w : World) (path : CStr) : Option (List CStr) × World :=
  match os.opendir path with
  | none => (none, w)
  | some dir => (some dir, { w with dirs := w.dirs + 1 })

/-- The call `closedir(dir)`. -/
def sys_closedir (w : World) : World :=
  { w with dirs := w.dirs - 1 }

/-! ## Memory -/

/-- Memory: the byte at each address. -/
abbrev Mem := Nat → Nat

/-- Function `memcpy(dst, src, n)`, the source being a C string: bytes
`0 .. n-1` of the string (its terminator is the byte `0` at index
`strlen`). -/
def memcpy (m : Mem) (dst : Nat) (src : CStr) (n : Nat) : Mem :=
  fun a => if dst ≤ a ∧ a < dst + n then src.getD (a - dst) 0 else m a

/-- Assignment `p[0] = b` through a `char*`. -/
def store (m : Mem) (p : Nat) (b : Nat) : Mem :=
  fun a => if a = p then b else m a

/-! ## `fs.c` -/

/-- The `switch` of `fs_open`: the flags of each mode, `none` for the
`default` case. -/
def fs_open_flags : OpenMode → Option Nat
  | .OPEN_READ => some O_RDONLY
  | .OPEN_WRITE => some (O_WRONLY ||| O_CREAT ||| O_TRUNC)
  | .OPEN_APPEND => some (O_WRONLY ||| O_CREAT)
  | .other _ => none

/-- Function `fs_open`: result, the contents of `*file` afterwards, and the
world. -/
def fs_open (os : OS) (w : World) (path : CStr) (mode : OpenMode) (file : fs_handle) :
    Bool × fs_handle × World :=
  match fs_open_flags mode with
  | none => (false, file, w)
  | some flags =>
    let (fd, w1) := sys_open os w path flags (S_IRUSR ||| S_IWUSR)
    if fd = -1 then (false, file, w1)
    else (true, { file with handle := fd }, w1)

/-- Function `fs_close`. -/
def fs_close (w : World) (file : fs_handle) : Bool × World :=
  let (r, w1) := sys_close w file.handle
  (r = 0, w1)

/-- Function `fs_read`: result and the contents of `*bytes` afterwards;
`bytes` is the contents of `*bytes` at the call. -/
def fs_read (os : OS) (file : fs_handle) (buffer : Nat) (bytes : Nat) : Bool × Nat :=
  let result := os.read file.handle buffer bytes
  if result < 0 then (false, 0) else (true, toUInt64 result)

/-- Function `fs_write`: result and the contents of `*bytes` afterwards. -/
def fs_write (os : OS) (file : fs_handle) (buffer : Nat) (bytes : Nat) : Bool × Nat :=
  let result := os.write file.handle buffer bytes
  if result < 0 then (false, 0) else (true, toUInt64 result)

/-- Function `fs_stat`: `info` is `none` for a null pointer, otherwise the
contents of `*info`; the result and the contents of `*info` afterwards. -/
def fs_stat (os : OS) (path : CStr) (info : Option FileInfo) : Bool × Option FileInfo :=
  match os.stat path with
  | none => (false, info)
  | some stats =>
    match info with
    | none => (true, none)
    | some _ =>
      (true, some
        { size := toUInt64 stats.st_size
          lastModified := toUInt64 stats.st_mtime
          type := if stats.st_mode &&& S_IFDIR ≠ 0 then .FILE_DIRECTORY else .FILE_REGULAR })

/-- Function `fs_map`: the pointer returned, the contents of `*size`
afterwards, and the world.  The locals `info` and `file` are uninitialised
in the source and read only after `fs_stat` and `fs_open` have assigned
them; they start here as `info0` and `file0`. -/
def fs_map (os : OS) (w : World) (path : CStr) (size : Nat)
    (info0 : FileInfo) (file0 : fs_handle) : Nat × Nat × World :=
  match fs_stat os path (some info0) with
  | (true, some info) =>
    match fs_open os w path .OPEN_READ file0 with
    | (true, file, w1) =>
      let size1 := info.size % WORD
      let data := os.mmap size1 PROT_READ MAP_PRIVATE file.handle 0
      let (_, w2) := fs_close w1 file
      (data, size1, w2)
    | (false, _, w1) => (NULL, size, w1)
  | _ => (NULL, size, w)

/-- The loop `while ((entry = readdir(dir)) != NULL) callback(context,
entry->d_name)`: `readdir` yields the next entry of the stream, or `NULL`
at its end; the callback acts on the state behind `context`. -/
def fs_list_loop {σ : Type} (callback : σ → CStr → σ) : List CStr → σ → σ
  | [], context => context
  | d_name :: dir, context => fs_list_loop callback dir (callback context d_name)

/-- Function `fs_list`: result, the state behind `context` afterwards, and
the world. -/
def fs_list {σ : Type} (os : OS) (w : World) (path : CStr) (callback : σ → CStr → σ)
    (context : σ) : Bool × σ × World :=
  match sys_opendir os w path with
  | (none, w1) => (false, context, w1)
  | (some dir, w1) =>
    let context1 := fs_list_loop callback dir context
    let w2 := sys_closedir w1
    (true, context1, w2)

/-- Function `copy`: the length returned and the memory afterwards. -/
def copy (m : Mem) (buffer size : Nat) (string : CStr) (length : Nat) : Nat × Mem :=
  if length ≥ size then (0, m)
  else
    let m1 := memcpy m buffer string length
    let m2 := store m1 (buffer + (length + 1)) 0
    (length, m2)

/-- Function `fs_getHomeDir`. -/
def fs_getHomeDir (os : OS) (m : Mem) (buffer size : Nat) : Nat × Mem :=
  match os.getenv "HOME" with
  | some home => copy m buffer size home (strlen home)
  | none =>
    match os.getpwuid os.getuid with
    | none => (0, m)
    | some entry => copy m buffer size entry.pw_dir (strlen entry.pw_dir)

/-- The string `"/.local/share"`. -/
def dataSuffix : CStr := "/.local/share".toList.map Char.toNat

/-- Function `fs_getDataDir`, the branch of the default build (neither
`__APPLE__` nor `EMSCRIPTEN`). -/
def fs_getDataDir (os : OS) (m : Mem) (buffer size : Nat) : Nat × Mem :=
  match os.getenv "XDG_DATA_HOME" with
  | some xdg => copy m buffer size xdg (strlen xdg)
  | none =>
    let (cursor, m1) := fs_getHomeDir os m buffer size
    if cursor > 0 then
      let (r, m2) := copy m1 (buffer + cursor) ((size + WORD - cursor) % WORD)
        dataSuffix (strlen dataSuffix)
      ((cursor + r) % WORD, m2)
    else (0, m1)

/-! ## `canvas.h` -/

/-- Name of an OpenGL object; the name `0` denotes no object. -/
abbrev GLuint := Nat

/-- Modelled from the spec: `graphics/texture.h` is not among the source
files.  A pixel format is a value of the enumeration `TextureFormat`. -/
abbrev TextureFormat := Nat

/-- Modelled from the spec: `graphics/texture.h` is not among the source
files.  The colour attachment: a GPU texture object with its fixed width,
height and format. -/
structure Texture where
  id : GLuint
  width : Int
  height : Int
  format : TextureFormat
  deriving DecidableEq, Repr

/-- The structure `Canvas` of `canvas.h`. -/
structure Canvas where
  texture : Texture
  framebuffer : GLuint
  resolveFramebuffer : GLuint
  depthStencilBuffer : GLuint
  msaaTexture : GLuint
  msaa : Int
  stereo : Bool
  deriving DecidableEq, Repr

/-- Modelled from the spec: the GPU backend is not among the source files.
The capability table of the Format Validator, the object names generated so
far, the objects now allocated, the number of objects the driver grants
before an allocation fails, and the number of blit calls issued. -/
structure Backend where
  supportsFormat : TextureFormat → Bool
  names : Nat
  live : List GLuint
  limit : Nat
  blits : Nat

/-- Modelled from the spec: the typed errors of section 7. -/
inductive CanvasError where
  | UnsupportedFormat
  | OutOfMemory
  | BackendError
  | InvalidState
  deriving DecidableEq, Repr

/-- Modelled from the spec: the backend's object creation is not among the
source files.  A fresh name, never `0`, or `none` when the driver refuses. -/
def glGen (g : Backend) : Option (GLuint × Backend) :=
  if g.live.length < g.limit then
    some (g.names + 1, { g with names := g.names + 1, live := (g.names + 1) :: g.live })
  else none

/-- Modelled from the spec: the body of `lovrCanvasResolve` is not among the
source files (`canvas.h` declares it).  Section 4.2: a no-op when the sample
count is 1, otherwise one blit from the multisample attachment into the
resolve attachment; the handles of the target are not changed. -/
def lovrCanvasResolve (g : Backend) (canvas : Canvas) : Canvas × Backend :=
  if canvas.msaa = 1 then (canvas, g)
  else (canvas, { g with blits := g.blits + 1 })

/-- Modelled from the spec: the multisample part of `lovrCanvasCreate`.
Section 4.2: if the sample count is greater than 1, a multisample colour
attachment and a second framebuffer, the resolve destination, are
allocated; otherwise neither exists. -/
def createMultisample (g : Backend) (msaa : Int) : Option (GLuint × GLuint × Backend) :=
  if msaa > 1 then
    match glGen g with
    | none => none
    | some (msaaTexture, g1) =>
      match glGen g1 with
      | none => none
      | some (resolveFramebuffer, g2) => some (msaaTexture, resolveFramebuffer, g2)
  else some (0, 0, g)

/-- Modelled from the spec: the body of `lovrCanvasCreate` is not among the
source files (`canvas.h` declares it).  Section 4.2: the format is validated
first; the colour attachment and the primary framebuffer are allocated; the
multisample part follows; if depth or stencil is wanted one depth/stencil
attachment is allocated.  A failure returns the error alone, the backend
staying as it was before the call. -/
def lovrCanvasCreate (g : Backend) (width height : Int) (format : TextureFormat) (msaa : Int)
    (depth stencil stereo : Bool) : Except CanvasError (Canvas × Backend) :=
  if g.supportsFormat format = false then .error .UnsupportedFormat
  else
    match glGen g with
    | none => .error .OutOfMemory
    | some (tex, g1) =>
      match glGen g1 with
      | none => .error .OutOfMemory
      | some (fb, g2) =>
        match createMultisample g2 msaa with
        | none => .error .OutOfMemory
        | some (ms, rfb, g3) =>
          match (if depth || stencil then glGen g3 else some (0, g3)) with
          | none => .error .OutOfMemory
          | some (ds, g4) =>
            .ok ({ texture := { id := tex, width := width, height := height, format := format }
                   framebuffer := fb
                   resolveFramebuffer := rfb
                   depthStencilBuffer := ds
                   msaaTexture := ms
                   msaa := msaa
                   stereo := stereo }, g4)

/-- Invariant of section 3: the resolve framebuffer and the multisample
attachment exist if and only if the sample count is greater than 1. -/
def CanvasInv (c : Canvas) : Prop :=
  (c.resolveFramebuffer ≠ 0 ↔ c.msaa > 1) ∧ (c.msaaTexture ≠ 0 ↔ c.msaa > 1)

instance (c : Canvas) : Decidable (CanvasInv c) := by
  unfold CanvasInv; infer_instance

/-! ## Concrete systems used to evaluate the code -/

/-- Initial world: the three standard descriptors are open. -/
def world0 : World := { fds := [0, 1, 2], dirs := 0 }

/-- Memory filled with the byte `'x'`. -/
def memX : Mem := fun _ => 120

/-- The bytes of `"/root"`. -/
def rootHome : CStr := "/root".toList.map Char.toNat

/-- A system with an empty regular file at every path, where `open` yields
descriptor `3`, `read` and `write` transfer the whole count, `mmap` fails
for length `0` as POSIX prescribes and maps at `4096` otherwise, every
directory lists `.`, `..` and `a`, and `HOME` is `/root`. -/
def os0 : OS where
  stat := fun _ => some { st_mode := S_IFREG ||| 0o644, st_size := 0, st_mtime := 1500000000 }
  sys_open := fun _ _ _ => 3
  read := fun _ _ n => n
  write := fun _ _ n => n
  mmap := fun len _ _ _ _ => if len = 0 then MAP_FAILED else 4096
  opendir := fun _ => some [[46], [46, 46], [97]]
  getenv := fun name => if name = "HOME" then some rootHome else none
  getuid := 1000
  getpwuid := fun _ => some { pw_dir := rootHome }

/-- A system where every call fails and no variable is set. -/
def osFail : OS where
  stat := fun _ => none
  sys_open := fun _ _ _ => -1
  read := fun _ _ _ => -1
  write := fun _ _ _ => -1
  mmap := fun _ _ _ _ _ => MAP_FAILED
  opendir := fun _ => none
  getenv := fun _ => none
  getuid := 1000
  getpwuid := fun _ => none

/-- A system like `os0` whose files are block devices. -/
def osBlk : OS :=
  { os0 with stat := fun _ => some { st_mode := S_IFBLK ||| 0o660, st_size := 0, st_mtime := 7 } }

/-- A backend that supports every format and grants 8 objects. -/
def gpu0 : Backend :=
  { supportsFormat := fun _ => true, names := 0, live := [], limit := 8, blits := 0 }

/-- The Canvas of the scenario of section 8: four samples, depth, no
stencil, no stereo. -/
def canvas4 : Canvas :=
  { texture := { id := 1, width := 1920, height := 1080, format := 0 }
    framebuffer := 2
    resolveFramebuffer := 4
    depthStencilBuffer := 5
    msaaTexture := 3
    msaa := 4
    stereo := false }

/-- The backend after the creation of `canvas4` on `gpu0`. -/
def gpu4 : Backend := { gpu0 with names := 5, live := [5, 4, 3, 2, 1] }

/-- Some value of a `FileInfo` before `fs_stat` writes it. -/
def info0 : FileInfo := { size := 11, lastModified := 22, type := .FILE_REGULAR }

/-! ## Lemmas -/

theorem toUInt64_eq_self (x : Int) (h0 : 0 ≤ x) (h : x < (2 ^ 63 : Int)) :
    (toUInt64 x : Int) = x := by
  unfold toUInt64
  omega

theorem fs_list_loop_eq_foldl {σ : Type} (callback : σ → CStr → σ) (dir : List CStr)
    (context : σ) : fs_list_loop callback dir context = dir.foldl callback context := by
  induction dir generalizing context with
  | nil => rfl
  | cons d rest ih => simp [fs_list_loop, ih]

theorem foldl_log (dir : List CStr) (log : List CStr) :
    dir.foldl (fun (l : List CStr) (name : CStr) => l ++ [name]) log = log ++ dir := by
  induction dir generalizing log with
  | nil => simp
  | cons d rest ih => simp [ih]

theorem glGen_ne_zero (g g1 : Backend) (n : GLuint) (h : glGen g = some (n, g1)) : n ≠ 0 := by
  unfold glGen at h
  split at h
  · simp at h
    obtain ⟨hn, _⟩ := h
    subst hn
    exact Nat.succ_ne_zero _
  · simp at h

theorem createMultisample_inv (g g1 : Backend) (msaa : Int) (ms rfb : GLuint)
    (h : createMultisample g msaa = some (ms, rfb, g1)) :
    (rfb ≠ 0 ↔ msaa > 1) ∧ (ms ≠ 0 ↔ msaa > 1) := by
  unfold createMultisample at h
  by_cases hm : msaa > 1
  · simp only [hm, if_true] at h
    cases ha : glGen g with
    | none => simp [ha] at h
    | some p =>
      obtain ⟨a, ga⟩ := p
      cases hb : glGen ga with
      | none => simp [ha, hb] at h
      | some q =>
        obtain ⟨b, gb⟩ := q
        simp [ha, hb] at h
        obtain ⟨h1, h2, _⟩ := h
        subst h1 h2
        have := glGen_ne_zero _ _ _ ha
        have := glGen_ne_zero _ _ _ hb
        simp [hm, *]
  · simp only [hm, if_false] at h
    simp at h
    obtain ⟨h1, h2, _⟩ := h
    subst h1 h2
    simp [hm]

/-- What `copy` does with a string that it accepts: the bytes of the string
are in the buffer, the byte at index `length` is as it was, the NUL is at
index `length + 1`. -/
theorem copy_accepted (m : Mem) (buffer size : Nat) (string : CStr) (length : Nat)
    (h : length < size) :
    (copy m buffer size string length).1 = length ∧
    (∀ i, i < length → (copy m buffer size string length).2 (buffer + i) = string.getD i 0) ∧
    (copy m buffer size string length).2 (buffer + length) = m (buffer + length) ∧
    (copy m buffer size string length).2 (buffer + (length + 1)) = 0 := by
  have hn : ¬ length ≥ size := by omega
  unfold copy
  simp only [hn, if_false]
  refine ⟨trivial, ?_, ?_, ?_⟩
  · intro i hi
    have h1 : buffer + i ≠ buffer + (length + 1) := by omega
    simp [store, memcpy, h1, hi]
  · have h1 : buffer + length ≠ buffer + (length + 1) := by omega
    simp [store, memcpy, h1]
  · simp [store]

/-- What `copy` does with a string that it rejects: nothing. -/
theorem copy_rejected (m : Mem) (buffer size : Nat) (string : CStr) (length : Nat)
    (h : length ≥ size) : copy m buffer size string length = (0, m) := by
  simp [copy, h]

/-! ## Claims -/

/-- C1, evaluated on a block device: the file-type bits of `st_mode` are
`S_IFBLK`, not `S_IFDIR`, and `fs_stat` sets `info->type` to
`FILE_DIRECTORY`, because it tests `st_mode & S_IFDIR` and the bit of
`S_IFDIR` is part of `S_IFBLK`. -/
theorem fs_stat_block_device_typed_directory :
    osBlk.stat [47] = some { st_mode := S_IFBLK ||| 0o660, st_size := 0, st_mtime := 7 } ∧
    (S_IFBLK ||| 0o660) &&& S_IFMT = S_IFBLK ∧ S_IFBLK ≠ S_IFDIR ∧
    fs_stat osBlk [47] (some info0)
      = (true, some { size := 0, lastModified := 7, type := .FILE_DIRECTORY }) := by
  decide

/-- C2, evaluated on an empty file: `stat` and `open` succeed, `mmap` fails
for the length 0 and returns `MAP_FAILED`, and `fs_map` returns that value,
which is not `NULL`; the descriptor it opened is closed again. -/
theorem fs_map_empty_file_not_null :
    os0.mmap 0 PROT_READ MAP_PRIVATE 3 0 = MAP_FAILED ∧
    fs_map os0 world0 [47] 99 info0 ⟨0⟩ = (MAP_FAILED, 0, world0) ∧
    MAP_FAILED ≠ NULL := by
  decide

/-- C3, evaluated for the home directory `/root` (length 5) and a buffer of
capacity 8 filled with `x`: `fs_getHomeDir` returns 5 and the buffer starts
with `/root`, but the byte at index 5 is still `x`; the NUL is at index 6. -/
theorem fs_getHomeDir_terminator_off_by_one :
    (fs_getHomeDir os0 memX 1000 8).1 = 5 ∧
    (List.range 5).map (fun i => (fs_getHomeDir os0 memX 1000 8).2 (1000 + i)) = rootHome ∧
    (fs_getHomeDir os0 memX 1000 8).2 (1000 + 5) = 120 ∧
    (fs_getHomeDir os0 memX 1000 8).2 (1000 + 6) = 0 := by
  decide

/-- C4: `fs_read` and `fs_write` return false exactly when the underlying
call returns a negative value, and then leave 0 in `*bytes`; otherwise they
return true and leave in `*bytes` exactly the count the call returned, which
is at most the requested count whenever the call's result is. -/
theorem fs_read_write_passthrough (os : OS) (file : fs_handle) (buffer n : Nat)
    (hr : inSSize (os.read file.handle buffer n))
    (hw : inSSize (os.write file.handle buffer n)) :
    (((fs_read os file buffer n).1 = false ↔ os.read file.handle buffer n < 0) ∧
      (os.read file.handle buffer n < 0 → fs_read os file buffer n = (false, 0)) ∧
      (0 ≤ os.read file.handle buffer n →
        (fs_read os file buffer n).1 = true ∧
        ((fs_read os file buffer n).2 : Int) = os.read file.handle buffer n) ∧
      (os.read file.handle buffer n ≤ n → (fs_read os file buffer n).2 ≤ n)) ∧
    (((fs_write os file buffer n).1 = false ↔ os.write file.handle buffer n < 0) ∧
      (os.write file.handle buffer n < 0 → fs_write os file buffer n = (false, 0)) ∧
      (0 ≤ os.write file.handle buffer n →
        (fs_write os file buffer n).1 = true ∧
        ((fs_write os file buffer n).2 : Int) = os.write file.handle buffer n) ∧
      (os.write file.handle buffer n ≤ n → (fs_write os file buffer n).2 ≤ n)) := by
  constructor
  · unfold fs_read
    by_cases h : os.read file.handle buffer n < 0
    · simp [h]
    · have h0 : 0 ≤ os.read file.handle buffer n := by omega
      have he := toUInt64_eq_self _ h0 hr.2
      simp [h, h0, he]
      intro hle
      omega
  · unfold fs_write
    by_cases h : os.write file.handle buffer n < 0
    · simp [h]
    · have h0 : 0 ≤ os.write file.handle buffer n := by omega
      have he := toUInt64_eq_self _ h0 hw.2
      simp [h, h0, he]
      intro hle
      omega

/-- Witness of C4 on a system that transfers the whole count of 5 bytes. -/
theorem fs_read_write_passthrough_witness :
    inSSize (os0.read 3 4096 5) ∧ inSSize (os0.write 3 4096 5) ∧
    fs_read os0 ⟨3⟩ 4096 5 = (true, 5) ∧ fs_write os0 ⟨3⟩ 4096 5 = (true, 5) ∧
    (fs_read os0 ⟨3⟩ 4096 5).2 ≤ 5 ∧ (fs_write os0 ⟨3⟩ 4096 5).2 ≤ 5 :=
  ⟨by decide, by decide, by decide, by decide,
    (fs_read_write_passthrough os0 ⟨3⟩ 4096 5 (by decide) (by decide)).1.2.2.2 (by decide),
    (fs_read_write_passthrough os0 ⟨3⟩ 4096 5 (by decide) (by decide)).2.2.2.2 (by decide)⟩

/-- C5: `fs_stat` returns false exactly when the underlying `stat` call
fails, and then leaves `*info` as it was; when `stat` succeeds and `info` is
not null, `info->size` is `st_size` and `info->lastModified` is `st_mtime`,
each converted to an unsigned 64-bit value; when `info` is null the call
succeeds and writes nothing. -/
theorem fs_stat_result (os : OS) (path : CStr) (info : Option FileInfo) :
    ((fs_stat os path info).1 = false ↔ os.stat path = none) ∧
    (os.stat path = none → fs_stat os path info = (false, info)) ∧
    (∀ stats old, os.stat path = some stats → info = some old →
      ∃ new, fs_stat os path info = (true, some new) ∧
        new.size = toUInt64 stats.st_size ∧
        new.lastModified = toUInt64 stats.st_mtime) ∧
    (∀ stats, os.stat path = some stats → info = none →
      fs_stat os path info = (true, none)) := by
  unfold fs_stat
  cases hs : os.stat path with
  | none => simp
  | some stats =>
    cases info with
    | none => simp
    | some old => simp

/-- Witness of C5: the size and time of a file, also of a negative time. -/
theorem fs_stat_result_witness :
    os0.stat [47] = some { st_mode := S_IFREG ||| 0o644, st_size := 0, st_mtime := 1500000000 } ∧
    (∃ new, fs_stat os0 [47] (some info0) = (true, some new) ∧
      new.size = toUInt64 0 ∧ new.lastModified = toUInt64 1500000000) ∧
    fs_stat osFail [47] (some info0) = (false, some info0) ∧
    fs_stat os0 [47] none = (true, none) :=
  ⟨rfl, (fs_stat_result os0 [47] (some info0)).2.2.1 _ info0 rfl rfl,
    (fs_stat_result osFail [47] (some info0)).2.1 rfl,
    (fs_stat_result os0 [47] none).2.2.2 _ rfl rfl⟩

/-- C6: `fs_list` returns false, without invoking the callback, exactly when
the directory cannot be opened; otherwise it invokes the callback once for
each entry the directory stream yields, in the stream's order (`.` and `..`
included), closes the directory and returns true. -/
theorem fs_list_calls {σ : Type} (os : OS) (w : World) (path : CStr)
    (callback : σ → CStr → σ) (context : σ) :
    ((fs_list os w path callback context).1 = false ↔ os.opendir path = none) ∧
    (os.opendir path = none →
      fs_list os w path callback context = (false, context, w) ∧
      (fs_list os w path (fun (log : List CStr) (name : CStr) => log ++ [name]) []).2.1 = []) ∧
    (∀ dir, os.opendir path = some dir →
      fs_list os w path callback context = (true, dir.foldl callback context, w) ∧
      (fs_list os w path (fun (log : List CStr) (name : CStr) => log ++ [name]) []).2.1 = dir) := by
  unfold fs_list sys_opendir sys_closedir
  cases hd : os.opendir path with
  | none => simp
  | some dir =>
    simp [fs_list_loop_eq_foldl, foldl_log]

/-- Witness of C6: a directory whose stream yields `.`, `..` and `a`. -/
theorem fs_list_calls_witness :
    os0.opendir [47] = some [[46], [46, 46], [97]] ∧
    fs_list os0 world0 [47] (fun (k : Nat) (name : CStr) => 10 * k + name.length) 0
      = (true, 121, world0) ∧
    (fs_list os0 world0 [47] (fun (log : List CStr) (name : CStr) => log ++ [name]) []).2.1
      = [[46], [46, 46], [97]] ∧
    fs_list osFail world0 [47] (fun (k : Nat) (name : CStr) => 10 * k + name.length) 0
      = (false, 0, world0) :=
  ⟨rfl,
    ((fs_list_calls os0 world0 [47] (fun (k : Nat) (name : CStr) => 10 * k + name.length) 0).2.2
      _ rfl).1,
    ((fs_list_calls os0 world0 [47] (fun (k : Nat) (name : CStr) => 10 * k + name.length) 0).2.2
      _ rfl).2,
    ((fs_list_calls osFail world0 [47] (fun (k : Nat) (name : CStr) => 10 * k + name.length) 0).2.1
      rfl).1⟩

/-- C7: every Canvas that `lovrCanvasCreate` produces has a resolve
framebuffer and a multisample attachment if and only if its sample count is
greater than 1, and `lovrCanvasResolve` keeps this invariant of any Canvas
that has it. -/
theorem canvas_msaa_invariant (g g1 : Backend) (width height : Int) (format : TextureFormat)
    (msaa : Int) (depth stencil stereo : Bool) (c : Canvas)
    (h : lovrCanvasCreate g width height format msaa depth stencil stereo = .ok (c, g1)) :
    CanvasInv c ∧ c.msaa = msaa ∧
      ∀ (g2 : Backend) (c2 : Canvas), CanvasInv c2 → CanvasInv (lovrCanvasResolve g2 c2).1 := by
  refine ⟨?_, ?_, ?_⟩
  · unfold lovrCanvasCreate at h
    split at h
    · simp at h
    · split at h
      · simp at h
      · split at h
        · simp at h
        · split at h
          · simp at h
          · rename_i ms rfb g3 hms
            split at h
            · simp at h
            · simp at h
              obtain ⟨hc, _⟩ := h
              subst hc
              exact createMultisample_inv _ _ _ _ _ hms
  · unfold lovrCanvasCreate at h
    split at h
    · simp at h
    · split at h
      · simp at h
      · split at h
        · simp at h
        · split at h
          · simp at h
          · split at h
            · simp at h
            · simp at h
              obtain ⟨hc, _⟩ := h
              subst hc
              rfl
  · intro g2 c2 hinv
    unfold lovrCanvasResolve
    split <;> exact hinv

/-- Witness of C7: the scenario of section 8 of the spec. -/
theorem canvas_msaa_invariant_witness :
    lovrCanvasCreate gpu0 1920 1080 0 4 true false false = .ok (canvas4, gpu4) ∧
    CanvasInv canvas4 ∧ canvas4.msaa = 4 ∧ CanvasInv (lovrCanvasResolve gpu4 canvas4).1 :=
  ⟨rfl, (canvas_msaa_invariant gpu0 gpu4 1920 1080 0 4 true false false canvas4 rfl).1,
    (canvas_msaa_invariant gpu0 gpu4 1920 1080 0 4 true false false canvas4 rfl).2.1,
    (canvas_msaa_invariant gpu0 gpu4 1920 1080 0 4 true false false canvas4 rfl).2.2 gpu4 canvas4
      (by decide)⟩

/-- C8, evaluated for a string of length 5 and a buffer of capacity 6:
`copy` accepts the string (5 < 6) and writes the NUL at index 6, the first
byte after the buffer, which held `x` before. -/
theorem copy_writes_at_index_size :
    (copy memX 1000 6 rootHome 5).1 = 5 ∧
    memX (1000 + 6) = 120 ∧
    (copy memX 1000 6 rootHome 5).2 (1000 + 6) = 0 := by
  decide

/-- C9, evaluated at `OPEN_APPEND`: the flags `fs_open` passes to `open` are
`O_WRONLY | O_CREAT`, in which `O_APPEND` is not set (nor is `O_TRUNC`). -/
theorem fs_open_append_flags_lack_O_APPEND :
    fs_open_flags .OPEN_APPEND = some (O_WRONLY ||| O_CREAT) ∧
    (O_WRONLY ||| O_CREAT) &&& O_APPEND = 0 ∧
    (O_WRONLY ||| O_CREAT) &&& O_TRUNC = 0 ∧
    (O_WRONLY ||| O_CREAT) &&& O_ACCMODE = O_WRONLY := by
  decide

/-- C10, evaluated with `XDG_DATA_HOME` unset, the home directory `/root`
(length 5) and a buffer of capacity 10, in which the home directory fits
and the suffix of 13 bytes does not (5 + 13 >= 10): `fs_getDataDir` returns
5, the length of the home directory, not 0. -/
theorem fs_getDataDir_returns_home_length :
    os0.getenv "XDG_DATA_HOME" = none ∧
    strlen rootHome = 5 ∧ strlen dataSuffix = 13 ∧
    (fs_getHomeDir os0 memX 1000 10).1 = 5 ∧
    (fs_getDataDir os0 memX 1000 10).1 = 5 := by
  decide

end Lovr
